import Mathlib

/- Batteries ships the rational-number arithmetic `@[irreducible]`, which
blocks `decide` from evaluating concrete game states; restore the default
reducibility so concrete runs of the embedded functions reduce. -/
set_option allowUnsafeReducibility true

attribute [semireducible] Rat.add Rat.sub Rat.mul Rat.inv Rat.div

set_option exponentiation.threshold 1200

set_option maxRecDepth 4000

/-!
A shallow embedding of the simulation core of the 2Cars game (a Svelte
single-file game), covering both shipped variants of `App.svelte`:
the human-input variant and the DQN-agent variant.  All JavaScript numbers
are modelled as rationals (`ℚ`); the random draws consumed by the spawner
and the agent's action choice are passed in as explicit parameters; DOM,
rendering and the TensorFlow value network are external collaborators and
do not appear (the network fit inside `DQNAgent.replay` touches neither the
replay buffer nor `epsilon`, which are the only agent fields modelled).
-/

namespace TwoCars

/-! ## Configuration (GAME_CONFIG) -/

def MAX_WIDTH : ℚ := 380
def CAR_OFFSET_Y : ℚ := 140
def MIN_VERTICAL_SPACING : ℚ := 100
def SIDE_MIN_SPACING : ℚ := 150
def CROSS_SIDE_SPACING : ℚ := 80
def BASE_SPAWN_CHANCE : ℚ := 1/50
def SPEED_MULTIPLIER : ℚ := 1/250
def COLLISION_RADIUS : ℚ := 30

/-! ## Entity model -/

/-- Which half of the arena an obstacle or car belongs to. -/
inductive Side
  | left
  | right
  deriving DecidableEq

/-- One of the two lane slots on a side; the source stores the strings
`'left'`/`'right'`, mapped to the `start`/`alt` lane x-positions. -/
inductive Lane
  | left
  | right
  deriving DecidableEq

/-- The source's obstacle `type` strings `'circle'` (collectible) and
`'square'` (hazard). -/
inductive ObsType
  | circle
  | square
  deriving DecidableEq

structure Car where
  lane : Lane
  y : ℚ
  x : ℚ
  deriving DecidableEq

structure Obstacle where
  x : ℚ
  y : ℚ
  type : ObsType
  side : Side
  deriving DecidableEq

/-- The `cars` object: one car per side. -/
structure Cars where
  left : Car
  right : Car
  deriving DecidableEq

/-- `cars[side]` lookup. -/
def Cars.get (cs : Cars) : Side → Car
  | Side.left => cs.left
  | Side.right => cs.right

/-! ## Reactive calculations -/

/-- Reactive statement `speed = Math.min(15, 3 + (score * 0.05) + (elapsedTime / 20000))`. -/
def speed (score : ℕ) (elapsedTime : ℚ) : ℚ :=
  min 15 (3 + (score * (1/20)) + (elapsedTime / 20000))

/-- `LANE_POSITIONS[side]` as a `(start, alt)` pair, from the reactive block
computing lane x-offsets from the game width. -/
def lanePositions (gameWidth : ℚ) : Side → ℚ × ℚ
  | Side.left => (gameWidth * (12/100), gameWidth * (38/100))
  | Side.right => (gameWidth * (625/1000), gameWidth * (88/100))

/-- Resolve a lane x-coordinate: lane `'left'` picks `start`, lane `'right'`
picks `alt` (the pattern used by `spawnObstacle`, `getState` and the car
position block). -/
def laneX (gameWidth : ℚ) (side : Side) : Lane → ℚ
  | Lane.left => (lanePositions gameWidth side).1
  | Lane.right => (lanePositions gameWidth side).2

/-! ## Collision -/

/-- `checkCollision = (car, obstacle) => Math.hypot(car.x - obstacle.x, car.y - obstacle.y) < GAME_CONFIG.COLLISION_RADIUS`.
`Math.hypot d e < r` is embedded by the equivalent executable comparison of
squares; the equivalence with the Euclidean-distance reading is proved in
`checkCollision_euclidean_spec`. -/
def checkCollision (car : Car) (obstacle : Obstacle) : Bool :=
  decide ((car.x - obstacle.x)^2 + (car.y - obstacle.y)^2 < COLLISION_RADIUS^2)

/-! ## Spawner -/

/-- The side picked by `Math.random() < 0.5 ? 'left' : 'right'` for draw `r2`. -/
def chosenSide (r2 : ℚ) : Side :=
  if r2 < 1/2 then Side.left else Side.right

/-- The opposite side (`otherSide` in the source). -/
def otherSideOf : Side → Side
  | Side.left => Side.right
  | Side.right => Side.left

/-- `spawnObstacle`, with the four `Math.random()` draws it consumes passed
in as `r1` (spawn-chance draw), `r2` (side), `r3` (type), `r4` (lane).
`sp` is the current reactive `speed` value.  The source's local bindings
(`spawnChance`, `side`, `otherSide`, `type`, `lane`) are inlined. -/
def spawnObstacle (gameWidth sp r1 r2 r3 r4 : ℚ) (obstacles : List Obstacle) :
    List Obstacle :=
  if obstacles.any (fun obs => decide (obs.y < MIN_VERTICAL_SPACING)) then obstacles
  else if r1 > BASE_SPAWN_CHANCE + (sp - 3) * SPEED_MULTIPLIER then obstacles
  else if obstacles.any (fun obs =>
      (obs.side == chosenSide r2 && decide (|obs.y| < SIDE_MIN_SPACING)) ||
      (obs.side == otherSideOf (chosenSide r2) && decide (|obs.y| < CROSS_SIDE_SPACING))) then
    obstacles
  else
    obstacles ++
      [{ x := laneX gameWidth (chosenSide r2) (if r4 < 1/2 then Lane.left else Lane.right)
         y := -20
         type := if r3 < 1/2 then ObsType.circle else ObsType.square
         side := chosenSide r2 }]

/-! ## Scoring helpers -/

/-- `updateBestScore`: persists `score` into `bestScore` when it exceeds it
(the storage write is external). -/
def updateBestScore (score bestScore : ℕ) : ℕ :=
  if score > bestScore then score else bestScore

/-! ## Simulation state (human-input variant) -/

/-- The module-scope game state of the human-input variant, gathered into a
record.  `gameStartTime` is the `Date.now()` anchor, `lastFrameTime` the
`performance.now()` anchor. -/
structure GameState where
  score : ℕ
  bestScore : ℕ
  gameOver : Bool
  isPaused : Bool
  gameStartTime : ℚ
  elapsedTime : ℚ
  lastFrameTime : ℚ
  roadDashOffset : ℚ
  gameHeight : ℚ
  gameWidth : ℚ
  cars : Cars
  obstacles : List Obstacle
  deriving DecidableEq

/-- The `deltaTime = timestamp - lastFrameTime` computation at the top of
`update`. -/
def updateDeltaTime (timestamp : ℚ) (s : GameState) : ℚ :=
  timestamp - s.lastFrameTime

/-- The in-place `obs.y += speed * (deltaTime / 16)` advancement performed at
the top of the obstacle `filter` callback, with `dy` the whole increment. -/
def advanceObs (dy : ℚ) (obs : Obstacle) : Obstacle :=
  { obs with y := obs.y + dy }

/-- Accumulator threading the mutable bindings touched by the body of the
human-variant obstacle `filter` callback: the surviving obstacles in order,
plus `score`, `bestScore` and `gameOver`. -/
structure FrameAcc where
  kept : List Obstacle
  score : ℕ
  bestScore : ℕ
  gameOver : Bool
  deriving DecidableEq

/-- One iteration of the human-variant `obstacles.filter` callback:
advance `obs.y` by `speed * (deltaTime / 16)` (passed in as `dy`), then
collision against the car on the obstacle's side (square: best score
persisted, `gameOver` set, obstacle kept; circle: `score++`, removed), then
the bottom-edge test (circle: best score persisted, `gameOver` set, removed;
square: removed), else keep. -/
def stepObstacle (cars : Cars) (gameHeight dy : ℚ) (acc : FrameAcc) (obs : Obstacle) :
    FrameAcc :=
  let o := advanceObs dy obs
  let relevantCar := cars.get o.side
  if checkCollision relevantCar o then
    match o.type with
    | ObsType.square =>
        { acc with
          bestScore := updateBestScore acc.score acc.bestScore
          gameOver := true
          kept := acc.kept ++ [o] }
    | ObsType.circle => { acc with score := acc.score + 1 }
  else if gameHeight ≤ o.y then
    match o.type with
    | ObsType.circle =>
        { acc with
          bestScore := updateBestScore acc.score acc.bestScore
          gameOver := true }
    | ObsType.square => acc
  else { acc with kept := acc.kept ++ [o] }

/-- The whole `obstacles = obstacles.filter(...)` pass of the human-variant
`update`, as a fold of `stepObstacle` over the previous collection. -/
def runFrame (cars : Cars) (gameHeight dy : ℚ) (obstacles : List Obstacle)
    (score bestScore : ℕ) (gameOver : Bool) : FrameAcc :=
  obstacles.foldl (stepObstacle cars gameHeight dy)
    { kept := [], score := score, bestScore := bestScore, gameOver := gameOver }

/-- The human-variant `update(timestamp)` tick.  `now` is `Date.now()` at the
tick; `r1 r2 r3 r4` are the random draws handed to `spawnObstacle` (which
runs even on a terminal tick, before the loop stops rescheduling).  The
reactive `speed` read inside the tick is the one derived from the state at
entry (Svelte flushes reactive recomputations only after the handler). -/
def update (timestamp now r1 r2 r3 r4 : ℚ) (s : GameState) : GameState :=
  if s.gameOver || s.isPaused then s
  else
    let deltaTime := updateDeltaTime timestamp s
    let elapsed := now - s.gameStartTime
    let sp := speed s.score s.elapsedTime
    let road := s.roadDashOffset - sp * (deltaTime / 16)
    let res := runFrame s.cars s.gameHeight (sp * (deltaTime / 16)) s.obstacles
      s.score s.bestScore s.gameOver
    { s with
      lastFrameTime := timestamp
      elapsedTime := elapsed
      roadDashOffset := road
      score := res.score
      bestScore := res.bestScore
      gameOver := res.gameOver
      obstacles := spawnObstacle s.gameWidth sp r1 r2 r3 r4 res.kept }

/-! ## Controls -/

def Lane.flip : Lane → Lane
  | Lane.left => Lane.right
  | Lane.right => Lane.left

/-- `toggleCarLane(side)`: flips the targeted car's lane, only while neither
paused nor over. -/
def toggleCarLane (side : Side) (s : GameState) : GameState :=
  if !s.isPaused && !s.gameOver then
    match side with
    | Side.left =>
        { s with cars := { s.cars with left := { s.cars.left with lane := s.cars.left.lane.flip } } }
    | Side.right =>
        { s with cars := { s.cars with right := { s.cars.right with lane := s.cars.right.lane.flip } } }
  else s

/-- `togglePause`: flips `isPaused`; when the flip resumes the game it
re-anchors `lastFrameTime` to `performance.now()` (passed as `now`) and
requests the next animation frame. -/
def togglePause (now : ℚ) (s : GameState) : GameState :=
  let p := !s.isPaused
  if p then { s with isPaused := p }
  else { s with isPaused := p, lastFrameTime := now }

/-- The keyboard events dispatched by `handleKeydown`; any other key hits no
entry of the `controls` map. -/
inductive Key
  | s
  | k
  | p
  | other
  deriving DecidableEq

/-- `handleKeydown`: keyed dispatch to `toggleCarLane('left')`,
`toggleCarLane('right')` or `togglePause`. -/
def handleKeydown (key : Key) (now : ℚ) (s : GameState) : GameState :=
  match key with
  | Key.s => toggleCarLane Side.left s
  | Key.k => toggleCarLane Side.right s
  | Key.p => togglePause now s
  | Key.other => s

/-- `restartGame`: resets the episode state and re-anchors both clocks
(`nowDate` is `Date.now()`, `nowPerf` is `performance.now()`). -/
def restartGame (nowDate nowPerf : ℚ) (s : GameState) : GameState :=
  { s with
    score := 0
    gameOver := false
    obstacles := []
    gameStartTime := nowDate
    elapsedTime := 0
    roadDashOffset := 0
    isPaused := false
    cars :=
      { left := { lane := Lane.left, y := s.gameHeight - CAR_OFFSET_Y, x := 0 }
        right := { lane := Lane.left, y := s.gameHeight - CAR_OFFSET_Y, x := 0 } }
    lastFrameTime := nowPerf }

/-! ## DQN agent (agent variant) -/

def epsilonMin : ℚ := 1/100
def epsilonDecay : ℚ := 199/200
def batchSize : ℕ := 32
def maxBufferSize : ℕ := 10000

/-- One `(state, action, reward, nextState, done)` tuple of the replay
buffer. -/
structure Experience where
  state : List ℚ
  action : ℕ
  reward : ℚ
  nextState : List ℚ
  done : Bool
  deriving DecidableEq

/-- The `DQNAgent` fields the simulation core owns; the TensorFlow network
and its optimizer live outside the embedding (no agent field depends on
them). -/
structure Agent where
  replayBuffer : List Experience
  epsilon : ℚ
  deriving DecidableEq

/-- The `DQNAgent` constructor (`epsilon = 1.0`, empty buffer). -/
def Agent.init : Agent :=
  { replayBuffer := [], epsilon := 1 }

/-- `DQNAgent.remember`: push the tuple, then `shift()` the oldest entry
when the buffer exceeds `maxBufferSize`. -/
def Agent.remember (a : Agent) (e : Experience) : Agent :=
  let buf := a.replayBuffer ++ [e]
  if buf.length > maxBufferSize then { a with replayBuffer := buf.drop 1 }
  else { a with replayBuffer := buf }

/-- `DQNAgent.replay`, restricted to its effect on the modelled fields: a
buffer below `batchSize` returns immediately; otherwise one batch is
sampled (a shuffled copy, leaving `replayBuffer` untouched), one `fit` of
the external network runs, and then `epsilon` is multiplied by
`epsilonDecay` — but only while it still exceeds `epsilonMin`. -/
def Agent.replay (a : Agent) : Agent :=
  if a.replayBuffer.length < batchSize then a
  else if a.epsilon > epsilonMin then { a with epsilon := a.epsilon * epsilonDecay }
  else a

/-! ## Agent-variant feature vector and actions -/

/-- Stable descending-by-`y` sort used to model
`aboveObs.sort((a, b) => b.y - a.y)` (JS `Array.prototype.sort` is stable;
only the ordering contract of the comparator is observable). -/
def insertYDesc (o : Obstacle) : List Obstacle → List Obstacle
  | [] => [o]
  | b :: rest => if b.y < o.y then o :: b :: rest else b :: insertYDesc o rest

def sortYDesc : List Obstacle → List Obstacle
  | [] => []
  | o :: rest => insertYDesc o (sortYDesc rest)

/-- The slot-filling loop of `getNextObstacles`: each of the `M` slots emits
`(y, 1/0 type flag)` for a present obstacle and the sentinels `(-100, -1)`
otherwise. -/
def obstacleSlots : List Obstacle → ℕ → List ℚ
  | _, 0 => []
  | [], Nat.succ m => -100 :: -1 :: obstacleSlots [] m
  | o :: rest, Nat.succ m =>
      o.y :: (if o.type == ObsType.circle then (1 : ℚ) else 0) :: obstacleSlots rest m

/-- `getNextObstacles(side, lane, M)`: the nearest `M` obstacles above the
car in the given (side, lane) column, nearest first. -/
def getNextObstacles (gameWidth carY : ℚ) (obstacles : List Obstacle)
    (side : Side) (lane : Lane) (M : ℕ) : List ℚ :=
  let lx := laneX gameWidth side lane
  let obsInLane := obstacles.filter (fun obs => obs.side == side && decide (|obs.x - lx| < 1))
  let aboveObs := sortYDesc (obsInLane.filter (fun obs => decide (obs.y < carY)))
  obstacleSlots (aboveObs.take M) M

/-- `getState()`: both car-lane bits followed by the four (side × lane)
obstacle slot groups, `M = 2`. -/
def getState (gameWidth : ℚ) (cars : Cars) (obstacles : List Obstacle) : List ℚ :=
  let leftCarLane : ℚ := if cars.left.lane == Lane.left then 0 else 1
  let rightCarLane : ℚ := if cars.right.lane == Lane.left then 0 else 1
  let carY := cars.left.y
  leftCarLane :: rightCarLane ::
    (getNextObstacles gameWidth carY obstacles Side.left Lane.left 2 ++
     getNextObstacles gameWidth carY obstacles Side.left Lane.right 2 ++
     getNextObstacles gameWidth carY obstacles Side.right Lane.left 2 ++
     getNextObstacles gameWidth carY obstacles Side.right Lane.right 2)

/-- The `laneConfigs` table of `setLanesFromAction`; actions are drawn from
`0..3`. -/
def laneConfig : ℕ → Lane × Lane
  | 0 => (Lane.left, Lane.left)
  | 1 => (Lane.left, Lane.right)
  | 2 => (Lane.right, Lane.left)
  | _ => (Lane.right, Lane.right)

/-- `setLanesFromAction(action)`: overwrite both cars' lanes from the table.
Only the `lane` fields change here; the reactive block recomputing car
x-coordinates flushes after the tick. -/
def setLanesFromAction (action : ℕ) (cars : Cars) : Cars :=
  { cars with
    left := { cars.left with lane := (laneConfig action).1 }
    right := { cars.right with lane := (laneConfig action).2 } }

/-- The `0`/`1` encoding of a lane used by `currentLanes` / `newLanes`. -/
def laneBit (l : Lane) : ℕ :=
  if l == Lane.left then 0 else 1

/-- The lane pair the source decodes from `previousAction`
(`previousAction < 2` for the left car, `previousAction % 2 === 0` for the
right car). -/
def prevLanesOf (previousAction : ℕ) : ℕ × ℕ :=
  (if previousAction < 2 then 0 else 1, if previousAction % 2 == 0 then 0 else 1)

/-- The `switchPenalty` computation of the agent-variant `update`:
`carsBefore` carries the lanes read into `currentLanes` (captured before
`setLanesFromAction`), `carsAfter` the cars used for the benefit lookback,
and `obstacles` the collection before this frame's advancement. -/
def switchPenaltyOf (carsBefore carsAfter : Cars) (obstacles : List Obstacle)
    (previousAction : Option ℕ) : ℚ :=
  match previousAction with
  | none => 0
  | some pa =>
    let currentLanes := (laneBit carsBefore.left.lane, laneBit carsBefore.right.lane)
    let prevLanes := prevLanesOf pa
    if currentLanes.1 != prevLanes.1 || currentLanes.2 != prevLanes.2 then
      let leftCar := carsAfter.left
      let rightCar := carsAfter.right
      let leftObstacles := obstacles.filter (fun obs =>
        obs.side == Side.left && decide (leftCar.y - 100 < obs.y) && decide (obs.y < leftCar.y))
      let rightObstacles := obstacles.filter (fun obs =>
        obs.side == Side.right && decide (rightCar.y - 100 < obs.y) && decide (obs.y < rightCar.y))
      let hasBenefit :=
        leftObstacles.any (fun obs => obs.type == ObsType.circle && checkCollision leftCar obs) ||
        rightObstacles.any (fun obs => obs.type == ObsType.circle && checkCollision rightCar obs) ||
        leftObstacles.any (fun obs => obs.type == ObsType.square && !(checkCollision leftCar obs)) ||
        rightObstacles.any (fun obs => obs.type == ObsType.square && !(checkCollision rightCar obs))
      if hasBenefit then -(1/10) else -1
    else 0

/-! ## Agent-variant tick -/

/-- Module-scope state of the agent variant: the shared game state plus the
running `reward` accumulator, `totalRewards`, the (never-assigned)
`previousAction`, and the agent. -/
structure RLState where
  score : ℕ
  bestScore : ℕ
  gameOver : Bool
  isPaused : Bool
  gameStartTime : ℚ
  elapsedTime : ℚ
  lastFrameTime : ℚ
  roadDashOffset : ℚ
  gameHeight : ℚ
  gameWidth : ℚ
  cars : Cars
  obstacles : List Obstacle
  totalRewards : ℚ
  reward : ℚ
  previousAction : Option ℕ
  agent : Agent
  deriving DecidableEq

/-- Accumulator of the agent-variant obstacle `filter` callback: surviving
obstacles plus the `score`, `reward` and `done` bindings it mutates. -/
structure RLFrameAcc where
  kept : List Obstacle
  score : ℕ
  reward : ℚ
  done : Bool
  deriving DecidableEq

/-- One iteration of the agent-variant `obstacles.filter` callback:
square collision subtracts 10 from `reward`, sets `done`, keeps the
obstacle; circle collision adds 1 to `score` and 2 to `reward`, removes it;
an obstacle past the bottom edge is removed, fatally (`reward -= 10`,
`done`) when it is a circle. -/
def stepObstacleRL (cars : Cars) (gameHeight dy : ℚ) (acc : RLFrameAcc) (obs : Obstacle) :
    RLFrameAcc :=
  let o := advanceObs dy obs
  let relevantCar := cars.get o.side
  if checkCollision relevantCar o then
    match o.type with
    | ObsType.square =>
        { acc with reward := acc.reward - 10, done := true, kept := acc.kept ++ [o] }
    | ObsType.circle => { acc with score := acc.score + 1, reward := acc.reward + 2 }
  else if gameHeight ≤ o.y then
    match o.type with
    | ObsType.circle => { acc with reward := acc.reward - 10, done := true }
    | ObsType.square => acc
  else { acc with kept := acc.kept ++ [o] }

/-- The agent-variant `obstacles.filter` pass, seeded with the episode's
accumulated `reward` (the module-scope binding the callback mutates). -/
def runFrameRL (cars : Cars) (gameHeight dy : ℚ) (obstacles : List Obstacle)
    (score : ℕ) (reward : ℚ) : RLFrameAcc :=
  obstacles.foldl (stepObstacleRL cars gameHeight dy)
    { kept := [], score := score, reward := reward, done := false }

/-- The agent-variant `update(timestamp)` tick: observe `getState`, apply
the chosen `action` (the epsilon-greedy or network choice, passed in),
compute the switch penalty against `previousAction`, advance and filter
obstacles, add the survival bonus and penalty to the running `reward`,
remember the tuple, run `replay`, and on a terminal frame set `gameOver`,
roll `reward` into `totalRewards`, zero it and persist the best score (the
delayed auto-restart is a separate later event).  `spawnObstacle` runs in
every branch. -/
def updateRL (timestamp now : ℚ) (action : ℕ) (r1 r2 r3 r4 : ℚ) (s : RLState) :
    RLState :=
  if s.gameOver || s.isPaused then s
  else
    let deltaTime := timestamp - s.lastFrameTime
    let elapsed := now - s.gameStartTime
    let sp := speed s.score s.elapsedTime
    let road := s.roadDashOffset - sp * (deltaTime / 16)
    let st := getState s.gameWidth s.cars s.obstacles
    let carsA := setLanesFromAction action s.cars
    let penalty := switchPenaltyOf s.cars carsA s.obstacles s.previousAction
    let res := runFrameRL carsA s.gameHeight (sp * (deltaTime / 16)) s.obstacles
      s.score s.reward
    let reward2 := res.reward + 1/100 + penalty
    let nextSt := getState s.gameWidth carsA res.kept
    let agent2 := (s.agent.remember
      { state := st, action := action, reward := reward2, nextState := nextSt,
        done := res.done }).replay
    let base :=
      { s with
        lastFrameTime := timestamp
        elapsedTime := elapsed
        roadDashOffset := road
        cars := carsA
        score := res.score
        obstacles := spawnObstacle s.gameWidth sp r1 r2 r3 r4 res.kept
        agent := agent2
        reward := reward2 }
    if res.done then
      { base with
        gameOver := true
        totalRewards := s.totalRewards + reward2
        reward := 0
        bestScore := updateBestScore res.score s.bestScore }
    else base

/-! ## Sample states used by concrete witnesses and counterexamples -/

/-- Both cars in their initial lane at a 600px-tall, 380px-wide arena
(`y = gameHeight - CAR_OFFSET_Y = 460`, x-positions from `LANE_POSITIONS`). -/
def sampleCars : Cars :=
  { left := { lane := Lane.left, y := 460, x := 228/5 }
    right := { lane := Lane.left, y := 460, x := 475/2 } }

/-- A square obstacle dead ahead of the left car: after advancing by 3 it
sits 17px from the car's center, well inside the collision radius. -/
def squareAhead : Obstacle :=
  { x := 228/5, y := 440, type := ObsType.square, side := Side.left }

/-- A running game one frame away from the left car hitting `squareAhead`. -/
def aboutToCollide : GameState :=
  { score := 0, bestScore := 0, gameOver := false, isPaused := false
    gameStartTime := 0, elapsedTime := 0, lastFrameTime := 0, roadDashOffset := 0
    gameHeight := 600, gameWidth := 380, cars := sampleCars, obstacles := [squareAhead] }

/-- A paused mid-episode state. -/
def pausedSample : GameState :=
  { score := 2, bestScore := 9, gameOver := false, isPaused := true
    gameStartTime := 0, elapsedTime := 500, lastFrameTime := 480, roadDashOffset := -7
    gameHeight := 600, gameWidth := 380, cars := sampleCars, obstacles := [] }

/-- A game-over state (overlay showing, loop halted). -/
def overSample : GameState :=
  { score := 5, bestScore := 7, gameOver := true, isPaused := false
    gameStartTime := 0, elapsedTime := 640, lastFrameTime := 640, roadDashOffset := -9
    gameHeight := 600, gameWidth := 380, cars := sampleCars, obstacles := [] }

/-- A circle obstacle far from the right car, one frame from the bottom edge. -/
def circleSlipping : Obstacle :=
  { x := 475/2, y := 599, type := ObsType.circle, side := Side.right }

/-- Sample frame accumulators for the per-obstacle step theorems. -/
def sampleAcc : FrameAcc :=
  { kept := [], score := 4, bestScore := 2, gameOver := false }

def sampleAccRL : RLFrameAcc :=
  { kept := [], score := 4, reward := 3/2, done := false }

/-! ## Helper lemmas -/

theorem advanceObs_side (dy : ℚ) (obs : Obstacle) : (advanceObs dy obs).side = obs.side := rfl

theorem advanceObs_type (dy : ℚ) (obs : Obstacle) : (advanceObs dy obs).type = obs.type := rfl

theorem advanceObs_y (dy : ℚ) (obs : Obstacle) : (advanceObs dy obs).y = obs.y + dy := rfl

/-! ## Claim C5 -/

/-- Claim C5: `checkCollision(car, obstacle)` returns `true` iff the
Euclidean distance between the car's and the obstacle's centers is strictly
less than `collisionRadius` (30); the distance computation is symmetric in
the two points, and distance exactly equal to `collisionRadius` does not
trigger a collision. -/
theorem checkCollision_euclidean_spec (car : Car) (obstacle : Obstacle) :
    (checkCollision car obstacle = true ↔
      Real.sqrt (((car.x : ℝ) - (obstacle.x : ℝ))^2 + ((car.y : ℝ) - (obstacle.y : ℝ))^2)
        < (COLLISION_RADIUS : ℝ)) ∧
    Real.sqrt (((car.x : ℝ) - (obstacle.x : ℝ))^2 + ((car.y : ℝ) - (obstacle.y : ℝ))^2)
      = Real.sqrt (((obstacle.x : ℝ) - (car.x : ℝ))^2 + ((obstacle.y : ℝ) - (car.y : ℝ))^2) ∧
    (Real.sqrt (((car.x : ℝ) - (obstacle.x : ℝ))^2 + ((car.y : ℝ) - (obstacle.y : ℝ))^2)
        = (COLLISION_RADIUS : ℝ) → checkCollision car obstacle = false) := by
  have hrad : (0 : ℝ) < (COLLISION_RADIUS : ℝ) := by
    rw [COLLISION_RADIUS]; norm_num
  have key : checkCollision car obstacle = true ↔
      ((car.x : ℝ) - (obstacle.x : ℝ))^2 + ((car.y : ℝ) - (obstacle.y : ℝ))^2
        < (COLLISION_RADIUS : ℝ)^2 := by
    rw [checkCollision, decide_eq_true_iff]
    constructor
    · intro h; exact_mod_cast h
    · intro h; exact_mod_cast h
  refine ⟨?_, ?_, ?_⟩
  · rw [key, Real.sqrt_lt' hrad]
  · congr 1; ring
  · intro heq
    have hsq : ((car.x : ℝ) - (obstacle.x : ℝ))^2 + ((car.y : ℝ) - (obstacle.y : ℝ))^2
        = (COLLISION_RADIUS : ℝ)^2 := by
      have hnn : (0:ℝ) ≤ ((car.x : ℝ) - (obstacle.x : ℝ))^2 + ((car.y : ℝ) - (obstacle.y : ℝ))^2 := by
        positivity
      calc ((car.x : ℝ) - (obstacle.x : ℝ))^2 + ((car.y : ℝ) - (obstacle.y : ℝ))^2
          = Real.sqrt (((car.x : ℝ) - (obstacle.x : ℝ))^2 + ((car.y : ℝ) - (obstacle.y : ℝ))^2)^2 :=
            (Real.sq_sqrt hnn).symm
        _ = (COLLISION_RADIUS : ℝ)^2 := by rw [heq]
    rcases Bool.eq_false_or_eq_true (checkCollision car obstacle) with ht | hf
    · exact absurd (key.mp ht) (by rw [hsq]; exact lt_irrefl _)
    · exact hf

/-- Concrete boundary instance for `checkCollision_euclidean_spec`: centers
exactly 30 apart do not collide. -/
theorem checkCollision_euclidean_spec_witness :
    checkCollision { lane := Lane.left, y := 0, x := 30 }
      { x := 0, y := 0, type := ObsType.circle, side := Side.left } = false := by
  refine (checkCollision_euclidean_spec
    { lane := Lane.left, y := 0, x := 30 }
    { x := 0, y := 0, type := ObsType.circle, side := Side.left }).2.2 ?_
  have h1 : (((30:ℚ) : ℝ) - ((0:ℚ) : ℝ))^2 + (((0:ℚ) : ℝ) - ((0:ℚ) : ℝ))^2 = 900 := by
    norm_num
  rw [h1, COLLISION_RADIUS]
  rw [show (900:ℝ) = 30^2 by norm_num, Real.sqrt_sq (by norm_num)]
  norm_num

/-! ## Claim C6 -/

/-- Claim C6: `restartGame` always sets `score = 0`, empties the obstacle
collection, resets `elapsedTime`, `roadDashOffset`, clears `gameOver` and
`isPaused` (back to Running), returns both cars to the initial lane,
re-anchors `lastFrameTime`, and leaves `bestScore` unchanged. -/
theorem restartGame_resets (nowDate nowPerf : ℚ) (s : GameState) :
    (restartGame nowDate nowPerf s).score = 0 ∧
    (restartGame nowDate nowPerf s).obstacles = [] ∧
    (restartGame nowDate nowPerf s).elapsedTime = 0 ∧
    (restartGame nowDate nowPerf s).roadDashOffset = 0 ∧
    (restartGame nowDate nowPerf s).gameOver = false ∧
    (restartGame nowDate nowPerf s).isPaused = false ∧
    (restartGame nowDate nowPerf s).cars.left.lane = Lane.left ∧
    (restartGame nowDate nowPerf s).cars.right.lane = Lane.left ∧
    (restartGame nowDate nowPerf s).lastFrameTime = nowPerf ∧
    (restartGame nowDate nowPerf s).bestScore = s.bestScore :=
  ⟨rfl, rfl, rfl, rfl, rfl, rfl, rfl, rfl, rfl, rfl⟩

/-! ## Claim C7 -/

/-- Claim C7: resuming from Paused re-anchors `lastFrameTime` to the current
time, so the first post-resume tick computes
`deltaTime = timestamp - now`; whenever that tick arrives within one frame
interval of the resume, its `deltaTime` is at most that interval — the
paused span never shows up as a spike. -/
theorem resume_reanchors_deltaTime (now t frameInterval : ℚ) (s : GameState)
    (hp : s.isPaused = true) (hframe : t - now ≤ frameInterval) :
    (togglePause now s).isPaused = false ∧
    (togglePause now s).lastFrameTime = now ∧
    updateDeltaTime t (togglePause now s) = t - now ∧
    updateDeltaTime t (togglePause now s) ≤ frameInterval := by
  have h : togglePause now s = { s with isPaused := false, lastFrameTime := now } := by
    rw [togglePause, hp]
    rfl
  rw [h]
  exact ⟨rfl, rfl, rfl, hframe⟩

/-- Concrete instance for `resume_reanchors_deltaTime`: resume at time 2000,
next frame at 2016, frame interval 16. -/
theorem resume_reanchors_deltaTime_witness :
    pausedSample.isPaused = true ∧ ((2016 : ℚ) - 2000 ≤ 16) ∧
    updateDeltaTime 2016 (togglePause 2000 pausedSample) ≤ 16 :=
  ⟨by decide, by norm_num,
    (resume_reanchors_deltaTime 2000 2016 16 pausedSample (by decide) (by norm_num)).2.2.2⟩

/-! ## Claim C1 -/

/-- Claim C1 (amended): when an advanced obstacle collides with the car on
its own side, a hazard (square) makes the frame terminal (`gameOver` in the
human variant, `done` in the learning variant) with the obstacle retained
this frame in BOTH variants, and the score untouched; a collectible
(circle) increases the score by exactly 1 and is removed (and, in the
learning variant, adds 2 to the running reward). -/
theorem collision_outcome_per_variant (cars : Cars) (gameHeight dy : ℚ)
    (acc : FrameAcc) (accRL : RLFrameAcc) (obs : Obstacle)
    (hc : checkCollision (cars.get obs.side) (advanceObs dy obs) = true) :
    ((obs.type = ObsType.square →
        (stepObstacle cars gameHeight dy acc obs).gameOver = true ∧
        (stepObstacle cars gameHeight dy acc obs).kept = acc.kept ++ [advanceObs dy obs] ∧
        (stepObstacle cars gameHeight dy acc obs).score = acc.score) ∧
      (obs.type = ObsType.circle →
        (stepObstacle cars gameHeight dy acc obs).score = acc.score + 1 ∧
        (stepObstacle cars gameHeight dy acc obs).kept = acc.kept ∧
        (stepObstacle cars gameHeight dy acc obs).gameOver = acc.gameOver)) ∧
    ((obs.type = ObsType.square →
        (stepObstacleRL cars gameHeight dy accRL obs).done = true ∧
        (stepObstacleRL cars gameHeight dy accRL obs).kept = accRL.kept ++ [advanceObs dy obs] ∧
        (stepObstacleRL cars gameHeight dy accRL obs).reward = accRL.reward - 10 ∧
        (stepObstacleRL cars gameHeight dy accRL obs).score = accRL.score) ∧
      (obs.type = ObsType.circle →
        (stepObstacleRL cars gameHeight dy accRL obs).score = accRL.score + 1 ∧
        (stepObstacleRL cars gameHeight dy accRL obs).reward = accRL.reward + 2 ∧
        (stepObstacleRL cars gameHeight dy accRL obs).kept = accRL.kept)) := by
  refine ⟨⟨?_, ?_⟩, ?_, ?_⟩ <;> intro htype <;>
    simp [stepObstacle, stepObstacleRL, advanceObs_side, advanceObs_type, hc, htype]

/-- Counterexample to claim C1 as stated: in the human (non-learning)
variant, a tick in which the left car collides with a square ends the
episode but RETAINS the obstacle in the collection — it is not removed. -/
theorem hazard_retained_in_human_variant :
    checkCollision (aboutToCollide.cars.get squareAhead.side) (advanceObs 3 squareAhead) = true ∧
    squareAhead.type = ObsType.square ∧
    (update 16 0 1 0 0 0 aboutToCollide).gameOver = true ∧
    (update 16 0 1 0 0 0 aboutToCollide).obstacles = [advanceObs 3 squareAhead] := by
  decide

/-- Concrete instance for `collision_outcome_per_variant`. -/
theorem collision_outcome_per_variant_witness :
    checkCollision (sampleCars.get squareAhead.side) (advanceObs 3 squareAhead) = true ∧
    (stepObstacle sampleCars 600 3 sampleAcc squareAhead).gameOver = true ∧
    (stepObstacleRL sampleCars 600 3 sampleAccRL squareAhead).done = true := by
  refine ⟨by decide, ?_, ?_⟩
  · exact ((collision_outcome_per_variant sampleCars 600 3 sampleAcc sampleAccRL squareAhead
      (by decide)).1.1 (by decide)).1
  · exact ((collision_outcome_per_variant sampleCars 600 3 sampleAcc sampleAccRL squareAhead
      (by decide)).2.1 (by decide)).1

/-! ## Claim C2 -/

/-- Claim C2: an obstacle that did not collide and whose advanced `y`
reaches the arena height is removed from the collection in both variants;
a missed collectible (circle) makes the frame terminal, while a dodged
hazard (square) has no effect at all on score or episode state. -/
theorem offscreen_obstacle_outcome (cars : Cars) (gameHeight dy : ℚ)
    (acc : FrameAcc) (accRL : RLFrameAcc) (obs : Obstacle)
    (hnc : checkCollision (cars.get obs.side) (advanceObs dy obs) = false)
    (hoff : gameHeight ≤ obs.y + dy) :
    ((stepObstacle cars gameHeight dy acc obs).kept = acc.kept ∧
      (obs.type = ObsType.circle →
        (stepObstacle cars gameHeight dy acc obs).gameOver = true ∧
        (stepObstacle cars gameHeight dy acc obs).score = acc.score) ∧
      (obs.type = ObsType.square → stepObstacle cars gameHeight dy acc obs = acc)) ∧
    ((stepObstacleRL cars gameHeight dy accRL obs).kept = accRL.kept ∧
      (obs.type = ObsType.circle →
        (stepObstacleRL cars gameHeight dy accRL obs).done = true ∧
        (stepObstacleRL cars gameHeight dy accRL obs).reward = accRL.reward - 10 ∧
        (stepObstacleRL cars gameHeight dy accRL obs).score = accRL.score) ∧
      (obs.type = ObsType.square → stepObstacleRL cars gameHeight dy accRL obs = accRL)) := by
  constructor
  · refine ⟨?_, ?_, ?_⟩
    · cases htype : obs.type <;>
        simp [stepObstacle, advanceObs_side, advanceObs_type, advanceObs_y, hnc, hoff, htype]
    · intro htype
      simp [stepObstacle, advanceObs_side, advanceObs_type, advanceObs_y, hnc, hoff, htype]
    · intro htype
      simp [stepObstacle, advanceObs_side, advanceObs_type, advanceObs_y, hnc, hoff, htype]
  · refine ⟨?_, ?_, ?_⟩
    · cases htype : obs.type <;>
        simp [stepObstacleRL, advanceObs_side, advanceObs_type, advanceObs_y, hnc, hoff, htype]
    · intro htype
      simp [stepObstacleRL, advanceObs_side, advanceObs_type, advanceObs_y, hnc, hoff, htype]
    · intro htype
      simp [stepObstacleRL, advanceObs_side, advanceObs_type, advanceObs_y, hnc, hoff, htype]

/-- Concrete instance for `offscreen_obstacle_outcome`: a circle sliding
past the bottom edge untouched ends the episode. -/
theorem offscreen_obstacle_outcome_witness :
    checkCollision (sampleCars.get circleSlipping.side) (advanceObs 3 circleSlipping) = false ∧
    (600 : ℚ) ≤ circleSlipping.y + 3 ∧
    (stepObstacle sampleCars 600 3 sampleAcc circleSlipping).gameOver = true := by
  refine ⟨by decide, by norm_num [circleSlipping], ?_⟩
  exact ((offscreen_obstacle_outcome sampleCars 600 3 sampleAcc sampleAccRL circleSlipping
    (by decide) (by norm_num [circleSlipping])).1.2.1 (by decide)).1

/-! ## Claim C3 -/

theorem stepObstacle_score_mono (cars : Cars) (gameHeight dy : ℚ) (acc : FrameAcc)
    (obs : Obstacle) : acc.score ≤ (stepObstacle cars gameHeight dy acc obs).score := by
  simp only [stepObstacle]
  split
  · split
    · exact Nat.le_refl _
    · exact Nat.le_succ _
  · split
    · split
      · exact Nat.le_refl _
      · exact Nat.le_refl _
    · exact Nat.le_refl _

theorem frame_foldl_score_mono (cars : Cars) (gameHeight dy : ℚ) :
    ∀ (l : List Obstacle) (acc : FrameAcc),
      acc.score ≤ (l.foldl (stepObstacle cars gameHeight dy) acc).score := by
  intro l
  induction l with
  | nil => intro acc; exact Nat.le_refl _
  | cons o rest ih =>
      intro acc
      exact Nat.le_trans (stepObstacle_score_mono cars gameHeight dy acc o) (ih _)

theorem speed_le_cap (score : ℕ) (elapsedTime : ℚ) : speed score elapsedTime ≤ 15 :=
  min_le_left _ _

theorem speed_mono {s1 s2 : ℕ} {e1 e2 : ℚ} (hs : s1 ≤ s2) (he : e1 ≤ e2) :
    speed s1 e1 ≤ speed s2 e2 := by
  unfold speed
  apply min_le_min le_rfl
  have hs' : (s1 : ℚ) ≤ (s2 : ℚ) := by exact_mod_cast hs
  have he' : e1 / 20000 ≤ e2 / 20000 := by linarith
  have hs'' : (s1 : ℚ) * (1/20) ≤ (s2 : ℚ) * (1/20) := by linarith
  linarith

theorem update_score_mono (timestamp now r1 r2 r3 r4 : ℚ) (s : GameState) :
    s.score ≤ (update timestamp now r1 r2 r3 r4 s).score := by
  simp only [update]
  split
  · exact Nat.le_refl _
  · exact frame_foldl_score_mono s.cars s.gameHeight
      (speed s.score s.elapsedTime * (updateDeltaTime timestamp s / 16)) s.obstacles
      { kept := [], score := s.score, bestScore := s.bestScore, gameOver := s.gameOver }

/-- Claim C3: at every tick `speed` equals
`min(15, 3 + score*0.05 + elapsedTime/20000)`; across a tick the score
never decreases, and consequently — as long as the tick's `elapsedTime`
does not go backwards — the speed never decreases within an episode and
never exceeds the cap of 15. -/
theorem speed_formula_and_monotonicity (timestamp now r1 r2 r3 r4 : ℚ) (s : GameState) :
    speed s.score s.elapsedTime = min 15 (3 + (s.score * (1/20)) + (s.elapsedTime / 20000)) ∧
    speed s.score s.elapsedTime ≤ 15 ∧
    s.score ≤ (update timestamp now r1 r2 r3 r4 s).score ∧
    (s.elapsedTime ≤ (update timestamp now r1 r2 r3 r4 s).elapsedTime →
      speed s.score s.elapsedTime ≤
        speed (update timestamp now r1 r2 r3 r4 s).score
          (update timestamp now r1 r2 r3 r4 s).elapsedTime) :=
  ⟨rfl, speed_le_cap _ _, update_score_mono timestamp now r1 r2 r3 r4 s,
    fun he => speed_mono (update_score_mono timestamp now r1 r2 r3 r4 s) he⟩

/-- Concrete instance for `speed_formula_and_monotonicity`. -/
theorem speed_formula_and_monotonicity_witness :
    aboutToCollide.elapsedTime ≤ (update 16 32 1 0 0 0 aboutToCollide).elapsedTime ∧
    speed aboutToCollide.score aboutToCollide.elapsedTime ≤
      speed (update 16 32 1 0 0 0 aboutToCollide).score
        (update 16 32 1 0 0 0 aboutToCollide).elapsedTime :=
  ⟨by decide, (speed_formula_and_monotonicity 16 32 1 0 0 0 aboutToCollide).2.2.2 (by decide)⟩

/-! ## Claim C8 -/

/-- Claim C8 (amended): the 'p' key handler dispatches to `togglePause`,
which has no game-over guard — only the on-screen pause button is disabled
while `GameOver` — so a 'p' key event during `GameOver` DOES flip
`isPaused` (and, when the flip resumes, re-anchors `lastFrameTime`); every
other piece of simulation state is untouched, the lane keys are
ineffective, and ticks remain no-ops while `gameOver` holds. -/
theorem pause_key_during_gameOver (now t nowDate r1 r2 r3 r4 : ℚ) (s : GameState)
    (hgo : s.gameOver = true) :
    (handleKeydown Key.p now s).isPaused = !s.isPaused ∧
    (handleKeydown Key.p now s).gameOver = true ∧
    (handleKeydown Key.p now s).score = s.score ∧
    (handleKeydown Key.p now s).bestScore = s.bestScore ∧
    (handleKeydown Key.p now s).obstacles = s.obstacles ∧
    (handleKeydown Key.p now s).elapsedTime = s.elapsedTime ∧
    (handleKeydown Key.p now s).roadDashOffset = s.roadDashOffset ∧
    (handleKeydown Key.p now s).cars = s.cars ∧
    (s.isPaused = false → (handleKeydown Key.p now s).lastFrameTime = s.lastFrameTime) ∧
    (s.isPaused = true → (handleKeydown Key.p now s).lastFrameTime = now) ∧
    handleKeydown Key.s now s = s ∧
    handleKeydown Key.k now s = s ∧
    update t nowDate r1 r2 r3 r4 s = s := by
  cases hp : s.isPaused <;>
    simp [handleKeydown, togglePause, toggleCarLane, update, hgo, hp]

/-- Counterexample to claim C8 as stated: a 'p' key event while
`gameOver` is true still changes `isPaused`. -/
theorem pause_key_toggles_when_gameOver :
    overSample.gameOver = true ∧
    (handleKeydown Key.p 1000 overSample).isPaused ≠ overSample.isPaused := by
  decide

/-- Concrete instance for `pause_key_during_gameOver`. -/
theorem pause_key_during_gameOver_witness :
    overSample.gameOver = true ∧
    (handleKeydown Key.p 1000 overSample).isPaused = !overSample.isPaused ∧
    update 1016 1016 1 0 0 0 overSample = overSample := by
  obtain ⟨h1, -, -, -, -, -, -, -, -, -, -, -, h13⟩ :=
    pause_key_during_gameOver 1000 1016 1016 1 0 0 0 overSample (by decide)
  exact ⟨by decide, h1, h13⟩

/-! ## Claim C4 -/

theorem side_ne_iff {a b : Side} : a ≠ b ↔ a = otherSideOf b := by
  cases a <;> cases b <;> simp [otherSideOf]

/-- An existing same-side obstacle far below the spawn row. -/
def farSameSide : Obstacle :=
  { x := 228/5, y := 200, type := ObsType.circle, side := Side.left }

/-- Claim C4: whenever the spawner appends a new obstacle, every existing
obstacle satisfies the spacing guards at spawn time — same-side obstacles
are at least `sideMinSpacing` (150) away vertically (both in `|y|` and in
separation from the new obstacle's `y = -20`), opposite-side obstacles at
least `crossSideSpacing` (80) — and spawning is suppressed when any
obstacle violates the `|y|` guards for the drawn side, or sits above
`minVerticalSpacing`. -/
theorem spawn_spacing_guarantee (gameWidth sp r1 r2 r3 r4 : ℚ) (obstacles : List Obstacle) :
    (spawnObstacle gameWidth sp r1 r2 r3 r4 obstacles ≠ obstacles →
      ∃ n, spawnObstacle gameWidth sp r1 r2 r3 r4 obstacles = obstacles ++ [n] ∧
        n.y = -20 ∧ n.side = chosenSide r2 ∧
        ∀ o ∈ obstacles,
          MIN_VERTICAL_SPACING ≤ o.y ∧
          (o.side = n.side → SIDE_MIN_SPACING ≤ |o.y| ∧ SIDE_MIN_SPACING ≤ |o.y - n.y|) ∧
          (o.side ≠ n.side → CROSS_SIDE_SPACING ≤ |o.y| ∧ CROSS_SIDE_SPACING ≤ |o.y - n.y|)) ∧
    ((∃ o ∈ obstacles, o.y < MIN_VERTICAL_SPACING) →
      spawnObstacle gameWidth sp r1 r2 r3 r4 obstacles = obstacles) ∧
    ((∃ o ∈ obstacles,
        (o.side = chosenSide r2 ∧ |o.y| < SIDE_MIN_SPACING) ∨
        (o.side = otherSideOf (chosenSide r2) ∧ |o.y| < CROSS_SIDE_SPACING)) →
      spawnObstacle gameWidth sp r1 r2 r3 r4 obstacles = obstacles) := by
  simp only [spawnObstacle]
  split
  case isTrue h1 =>
    exact ⟨fun hne => absurd rfl hne, fun _ => rfl, fun _ => rfl⟩
  case isFalse h1 =>
    have hymin : ∀ o ∈ obstacles, MIN_VERTICAL_SPACING ≤ o.y := by
      intro o ho
      by_contra hlt
      exact h1 (List.any_eq_true.mpr ⟨o, ho, decide_eq_true (lt_of_not_le hlt)⟩)
    split
    case isTrue h2 =>
      exact ⟨fun hne => absurd rfl hne, fun _ => rfl, fun _ => rfl⟩
    case isFalse h2 =>
      split
      case isTrue h3 =>
        exact ⟨fun hne => absurd rfl hne, fun _ => rfl, fun _ => rfl⟩
      case isFalse h3 =>
        have hguard : ∀ o ∈ obstacles,
            (o.side = chosenSide r2 → SIDE_MIN_SPACING ≤ |o.y|) ∧
            (o.side = otherSideOf (chosenSide r2) → CROSS_SIDE_SPACING ≤ |o.y|) := by
          intro o ho
          have hno : ¬(((o.side == chosenSide r2 && decide (|o.y| < SIDE_MIN_SPACING)) ||
              (o.side == otherSideOf (chosenSide r2) &&
                decide (|o.y| < CROSS_SIDE_SPACING))) = true) := by
            intro hg
            exact h3 (List.any_eq_true.mpr ⟨o, ho, hg⟩)
          rw [Bool.or_eq_true, Bool.and_eq_true, Bool.and_eq_true, beq_iff_eq, beq_iff_eq,
            decide_eq_true_iff, decide_eq_true_iff] at hno
          push_neg at hno
          exact hno
        refine ⟨fun _ => ⟨_, rfl, rfl, rfl, ?_⟩, ?_, ?_⟩
        · intro o ho
          have hy := hymin o ho
          have hy0 : (0:ℚ) ≤ o.y := by
            rw [MIN_VERTICAL_SPACING] at hy; linarith
          have habs : |o.y| = o.y := abs_of_nonneg hy0
          refine ⟨hy, ?_, ?_⟩
          · intro hos
            have h150 := (hguard o ho).1 hos
            refine ⟨h150, ?_⟩
            rw [habs] at h150
            rw [show o.y - (-20 : ℚ) = o.y + 20 by ring,
              abs_of_nonneg (by linarith : (0:ℚ) ≤ o.y + 20)]
            rw [SIDE_MIN_SPACING] at h150 ⊢
            linarith
          · intro hos
            have h80 := (hguard o ho).2 (side_ne_iff.mp hos)
            refine ⟨h80, ?_⟩
            rw [show o.y - (-20 : ℚ) = o.y + 20 by ring,
              abs_of_nonneg (by linarith : (0:ℚ) ≤ o.y + 20)]
            rw [CROSS_SIDE_SPACING]
            rw [MIN_VERTICAL_SPACING] at hy
            linarith
        · rintro ⟨o, ho, hlt⟩
          exact absurd hlt (not_lt.mpr (hymin o ho))
        · rintro ⟨o, ho, hclash⟩
          exfalso
          rcases hclash with ⟨hos, habs⟩ | ⟨hos, habs⟩
          · exact absurd habs (not_lt.mpr ((hguard o ho).1 hos))
          · exact absurd habs (not_lt.mpr ((hguard o ho).2 hos))

/-- Concrete instance for `spawn_spacing_guarantee`: with one far-away
same-side obstacle and favorable draws the spawner appends, and the spacing
guarantee holds for the existing obstacle. -/
theorem spawn_spacing_guarantee_witness :
    spawnObstacle 380 3 0 0 0 0 [farSameSide] ≠ [farSameSide] ∧
    ∃ n, spawnObstacle 380 3 0 0 0 0 [farSameSide] = [farSameSide] ++ [n] ∧
      n.y = -20 ∧ n.side = chosenSide 0 ∧
      ∀ o ∈ [farSameSide],
        MIN_VERTICAL_SPACING ≤ o.y ∧
        (o.side = n.side → SIDE_MIN_SPACING ≤ |o.y| ∧ SIDE_MIN_SPACING ≤ |o.y - n.y|) ∧
        (o.side ≠ n.side → CROSS_SIDE_SPACING ≤ |o.y| ∧ CROSS_SIDE_SPACING ≤ |o.y - n.y|) :=
  ⟨by decide, (spawn_spacing_guarantee 380 3 0 0 0 0 [farSameSide]).1 (by decide)⟩

/-! ## Claim C9 -/

/-- A placeholder tuple; only the buffer length matters to `replay`'s
control flow. -/
def stubExperience : Experience :=
  { state := [], action := 0, reward := 0, nextState := [], done := false }

/-- A fresh agent (`epsilon = 1`) whose buffer has just reached
`batchSize`, so every `replay` call performs a learning step. -/
def fullBufferAgent : Agent :=
  { replayBuffer := List.replicate batchSize stubExperience, epsilon := 1 }

theorem replay_buffer_eq (a : Agent) : (Agent.replay a).replayBuffer = a.replayBuffer := by
  rw [Agent.replay]
  split
  · rfl
  · split <;> rfl

theorem replay_epsilon_of_full (a : Agent) (h : batchSize ≤ a.replayBuffer.length) :
    (Agent.replay a).epsilon =
      if epsilonMin < a.epsilon then a.epsilon * epsilonDecay else a.epsilon := by
  rw [Agent.replay, if_neg (by omega)]
  split <;> rfl

theorem replay_iterate_buffer (n : ℕ) (a : Agent) :
    (Agent.replay^[n] a).replayBuffer = a.replayBuffer := by
  induction n with
  | zero => rfl
  | succ m ih => rw [Function.iterate_succ_apply', replay_buffer_eq, ih]

theorem replay_iterate_epsilon (n : ℕ)
    (h : ∀ k, k < n → epsilonMin < epsilonDecay ^ k) :
    (Agent.replay^[n] fullBufferAgent).epsilon = epsilonDecay ^ n := by
  induction n with
  | zero => rfl
  | succ m ih =>
      rw [Function.iterate_succ_apply']
      rw [replay_epsilon_of_full _ (by rw [replay_iterate_buffer]; exact le_rfl)]
      rw [ih (fun k hk => h k (hk.trans (Nat.lt_succ_self m)))]
      rw [if_pos (h m (Nat.lt_succ_self m)), pow_succ]

theorem decay_pow_918 : epsilonMin < epsilonDecay ^ 918 := by
  have hnat : (200:ℕ)^918 < 199^918 * 100 := by decide
  have h : ((200:ℚ))^918 < 199^918 * 100 := by exact_mod_cast hnat
  rw [epsilonMin, epsilonDecay, div_pow, div_lt_div_iff₀ (by norm_num) (by positivity)]
  linarith

theorem decay_pow_919 : epsilonDecay ^ 919 < epsilonMin := by
  have hnat : (199:ℕ)^919 * 100 < 200^919 := by decide
  have h : ((199:ℚ))^919 * 100 < 200^919 := by exact_mod_cast hnat
  rw [epsilonMin, epsilonDecay, div_pow, div_lt_div_iff₀ (by positivity) (by norm_num)]
  linarith

/-- Counterexample to claim C9 as stated: starting from a fresh agent with
a full buffer, the 919th completed learning step multiplies an epsilon that
is still above the floor (`0.995^918 > 0.01`) and lands strictly BELOW
`epsilonMin` — the floor can be undershot once. -/
theorem epsilon_drops_below_floor :
    (Agent.replay^[919] fullBufferAgent).epsilon < epsilonMin := by
  have hmono : ∀ k, k < 919 → epsilonMin < epsilonDecay ^ k := by
    intro k hk
    refine lt_of_lt_of_le decay_pow_918 ?_
    exact pow_le_pow_of_le_one (by rw [epsilonDecay]; norm_num)
      (by rw [epsilonDecay]; norm_num) (by omega)
  calc (Agent.replay^[919] fullBufferAgent).epsilon
      = epsilonDecay ^ 919 := replay_iterate_epsilon 919 hmono
    _ < epsilonMin := decay_pow_919

/-- Claim C9 (amended): a `replay` call that performs no learning step
(buffer below `batchSize`) changes nothing; a completed learning step
multiplies `epsilon` by `epsilonDecay` exactly once, but only while
`epsilon` still exceeds `epsilonMin` (below that it is left unchanged); the
true invariant floor is `epsilonMin * epsilonDecay` — one decay step below
the nominal floor — which `replay` preserves. -/
theorem epsilon_decay_per_learning_step (a : Agent)
    (hfloor : epsilonMin * epsilonDecay ≤ a.epsilon) :
    (a.replayBuffer.length < batchSize → Agent.replay a = a) ∧
    (batchSize ≤ a.replayBuffer.length →
      (Agent.replay a).epsilon =
        if epsilonMin < a.epsilon then a.epsilon * epsilonDecay else a.epsilon) ∧
    epsilonMin * epsilonDecay ≤ (Agent.replay a).epsilon := by
  refine ⟨fun hlt => by rw [Agent.replay, if_pos hlt],
    fun hge => replay_epsilon_of_full a hge, ?_⟩
  rw [Agent.replay]
  split
  · exact hfloor
  · split
    case isTrue hgt =>
      have hd : (0:ℚ) < epsilonDecay := by rw [epsilonDecay]; norm_num
      exact mul_le_mul_of_nonneg_right (le_of_lt hgt) (le_of_lt hd)
    case isFalse hgt => exact hfloor

/-- Concrete instance for `epsilon_decay_per_learning_step`. -/
theorem epsilon_decay_per_learning_step_witness :
    epsilonMin * epsilonDecay ≤ fullBufferAgent.epsilon ∧
    epsilonMin * epsilonDecay ≤ (Agent.replay fullBufferAgent).epsilon :=
  ⟨by decide, (epsilon_decay_per_learning_step fullBufferAgent (by decide)).2.2⟩

/-! ## Claim C10 -/

theorem remember_getLast (a : Agent) (e : Experience) :
    (a.remember e).replayBuffer.getLast? = some e := by
  rw [Agent.remember]
  split
  case isTrue h =>
    have hlen : 1 ≤ a.replayBuffer.length := by
      rw [List.length_append, maxBufferSize] at h
      simp at h
      omega
    show ((a.replayBuffer ++ [e]).drop 1).getLast? = some e
    rw [List.drop_append_of_le_length hlen]
    exact List.getLast?_concat _
  case isFalse h => exact List.getLast?_concat _

/-- The `(state, action, reward, nextState, done)` tuple the agent-variant
tick hands to `remember`, spelled out from the body of `updateRL`. -/
def recordedExp (timestamp : ℚ) (action : ℕ) (s : RLState) : Experience :=
  { state := getState s.gameWidth s.cars s.obstacles
    action := action
    reward := (runFrameRL (setLanesFromAction action s.cars) s.gameHeight
        (speed s.score s.elapsedTime * ((timestamp - s.lastFrameTime) / 16)) s.obstacles
        s.score s.reward).reward + 1/100 +
      switchPenaltyOf s.cars (setLanesFromAction action s.cars) s.obstacles s.previousAction
    nextState := getState s.gameWidth (setLanesFromAction action s.cars)
      (runFrameRL (setLanesFromAction action s.cars) s.gameHeight
        (speed s.score s.elapsedTime * ((timestamp - s.lastFrameTime) / 16)) s.obstacles
        s.score s.reward).kept
    done := (runFrameRL (setLanesFromAction action s.cars) s.gameHeight
        (speed s.score s.elapsedTime * ((timestamp - s.lastFrameTime) / 16)) s.obstacles
        s.score s.reward).done }

/-- Claim C10 (amended): the tuple recorded by `remember` on a tick carries
the RUNNING episode reward, not the reward earned on that tick alone: its
reward component equals the episode accumulator seeded into the obstacle
pass (`s.reward`) plus this tick's collision/miss deltas, the `+0.01`
survival bonus and the switch penalty; the switch penalty is `0` whenever
`previousAction` is `null`, and since no tick ever assigns
`previousAction`, it stays at its initial `null` forever. -/
theorem remembered_reward_accumulates (timestamp now : ℚ) (action : ℕ) (r1 r2 r3 r4 : ℚ)
    (s : RLState) (hgo : s.gameOver = false) (hp : s.isPaused = false) :
    (updateRL timestamp now action r1 r2 r3 r4 s).agent.replayBuffer.getLast? =
      some (recordedExp timestamp action s) ∧
    (recordedExp timestamp action s).reward =
      (runFrameRL (setLanesFromAction action s.cars) s.gameHeight
          (speed s.score s.elapsedTime * ((timestamp - s.lastFrameTime) / 16)) s.obstacles
          s.score s.reward).reward + 1/100 +
        switchPenaltyOf s.cars (setLanesFromAction action s.cars) s.obstacles
          s.previousAction ∧
    (s.previousAction = none →
      switchPenaltyOf s.cars (setLanesFromAction action s.cars) s.obstacles
        s.previousAction = 0) ∧
    (updateRL timestamp now action r1 r2 r3 r4 s).previousAction = s.previousAction := by
  have hguard : ¬((s.gameOver || s.isPaused) = true) := by
    rw [hgo, hp]
    exact Bool.false_ne_true
  refine ⟨?_, rfl, ?_, ?_⟩
  · simp only [updateRL]
    rw [if_neg hguard]
    split <;>
      · show List.getLast? (Agent.replayBuffer
            (Agent.replay (Agent.remember s.agent (recordedExp timestamp action s)))) =
          some (recordedExp timestamp action s)
        rw [replay_buffer_eq, remember_getLast]
  · intro hnone
    rw [hnone, switchPenaltyOf]
  · simp only [updateRL]
    rw [if_neg hguard]
    split <;> rfl

/-- The agent variant's starting state: fresh agent, empty field. -/
def rlStart : RLState :=
  { score := 0, bestScore := 0, gameOver := false, isPaused := false
    gameStartTime := 0, elapsedTime := 0, lastFrameTime := 0, roadDashOffset := 0
    gameHeight := 600, gameWidth := 380, cars := sampleCars, obstacles := []
    totalRewards := 0, reward := 0, previousAction := none, agent := Agent.init }

/-- Counterexample to claim C10 as stated: two obstacle-free survival ticks
record rewards `0.01` then `0.02` — but the reward earned on the second
tick alone is only the `0.01` survival bonus (no collision, no collectible,
no lane change), so the recorded component is the episode's accumulated
reward, not the per-tick reward. -/
theorem remembered_reward_not_per_tick :
    ((updateRL 32 32 0 1 0 0 0 (updateRL 16 16 0 1 0 0 0 rlStart)).agent.replayBuffer.map
        Experience.reward) = [1/100, 1/50] ∧
    ((1:ℚ)/50 ≠ 1/100) := by
  decide

/-- Concrete instance for `remembered_reward_accumulates`. -/
theorem remembered_reward_accumulates_witness :
    rlStart.gameOver = false ∧ rlStart.isPaused = false ∧
    (updateRL 16 16 0 1 0 0 0 rlStart).previousAction = rlStart.previousAction := by
  obtain ⟨-, -, -, h4⟩ := remembered_reward_accumulates 16 16 0 1 0 0 0 rlStart rfl rfl
  exact ⟨rfl, rfl, h4⟩

end TwoCars
